import Mathlib

/-!
Verification of the chipwizard-sim data model (`src/chipwizard_sim/models.py`).

This file gives a shallow embedding of the structures and the pure methods of
`models.py`: coordinates, directions, connection sets, layer cells, cells,
solutions, and the runtime layer/cell states with the gate-update rule.
Python `assert`-based `check` methods are embedded as `Bool`-valued functions
returning `true` exactly when every assert passes.  Python `set[Direction]` is
embedded as four membership bits (`DirSet`).
-/

namespace ChipwizardSim

/-- `Coords`: an integer grid coordinate (Python `class Coords`). -/
structure Coords where
  x : Int
  y : Int
deriving DecidableEq, Repr

/-- `Coords.in_bounds`: `0 <= self.x < 6 and 0 <= self.y < 5`. -/
def Coords.in_bounds (c : Coords) : Bool :=
  decide (0 ≤ c.x) && decide (c.x < 6) && decide (0 ≤ c.y) && decide (c.y < 5)

/-- `Coords.__add__`: componentwise addition. -/
def Coords.add (a b : Coords) : Coords :=
  ⟨a.x + b.x, a.y + b.y⟩

/-- `Direction` enum: RIGHT, UP, LEFT, DOWN. -/
inductive Direction where
  | RIGHT
  | UP
  | LEFT
  | DOWN
deriving DecidableEq, Repr

/-- `Direction.opposite`. -/
def Direction.opposite : Direction → Direction
  | .RIGHT => .LEFT
  | .UP => .DOWN
  | .LEFT => .RIGHT
  | .DOWN => .UP

/-- `Direction.delta`: the unit step of each direction. -/
def Direction.delta : Direction → Coords
  | .RIGHT => ⟨1, 0⟩
  | .UP => ⟨0, 1⟩
  | .LEFT => ⟨-1, 0⟩
  | .DOWN => ⟨0, -1⟩

/-- A Python `set[Direction]` as its four membership bits. -/
structure DirSet where
  right : Bool
  up : Bool
  left : Bool
  down : Bool
deriving DecidableEq, Repr

/-- Membership (`d in s`). -/
def DirSet.mem (s : DirSet) : Direction → Bool
  | .RIGHT => s.right
  | .UP => s.up
  | .LEFT => s.left
  | .DOWN => s.down

/-- The members as a list (one fixed iteration order; all uses below are
order-insensitive, matching Python set iteration). -/
def DirSet.toList (s : DirSet) : List Direction :=
  (if s.right then [.RIGHT] else []) ++ (if s.up then [.UP] else []) ++
    (if s.left then [.LEFT] else []) ++ (if s.down then [.DOWN] else [])

/-- `len(s)`. -/
def DirSet.card (s : DirSet) : Nat :=
  s.toList.length

/-- `s & t` (set intersection). -/
def DirSet.inter (s t : DirSet) : DirSet :=
  ⟨s.right && t.right, s.up && t.up, s.left && t.left, s.down && t.down⟩

/-- Python falsiness of a set: `not s` holds iff `s` is empty. -/
def DirSet.isEmpty (s : DirSet) : Bool :=
  !s.right && !s.up && !s.left && !s.down

/-- `sum((d.delta() for d in s), Coords(0, 0))`. -/
def DirSet.deltaSum (s : DirSet) : Coords :=
  (s.toList.map Direction.delta).foldl Coords.add ⟨0, 0⟩

/-- `LayerCell`: one conductor layer of a static cell. -/
structure LayerCell where
  value : Bool
  connections : DirSet
deriving DecidableEq, Repr

/-- `LayerCell.__bool__`: a layer cell is truthy iff it is present. -/
def LayerCell.toBool (lc : LayerCell) : Bool :=
  lc.value

/-- `LayerCell.check`: `if not self.value: assert not self.connections`;
`true` iff the assert passes. -/
def LayerCell.check (lc : LayerCell) : Bool :=
  if lc.value then true else lc.connections.isEmpty

/-- `Layer` enum: indices of the three conductor layers. -/
inductive Layer where
  | METAL_LAYER
  | NTYPE_LAYER
  | PTYPE_LAYER
deriving DecidableEq, Repr

/-- `Cell`: a static cell of the layout. -/
structure Cell where
  metal : LayerCell
  ntype : LayerCell
  ptype : LayerCell
  capacitor : Bool
  via : Bool
  n_on_top : Bool
deriving DecidableEq, Repr

/-- `Cell.layer`: select a layer by index. -/
def Cell.layer (c : Cell) : Layer → LayerCell
  | .METAL_LAYER => c.metal
  | .NTYPE_LAYER => c.ntype
  | .PTYPE_LAYER => c.ptype

/-- `Cell.is_transistor`: `self.ntype and self.ptype` (via `LayerCell.__bool__`). -/
def Cell.is_transistor (c : Cell) : Bool :=
  c.ntype.toBool && c.ptype.toBool

/-- `Cell.check`: `true` iff every assert of the Python method passes:
layer checks, capacitor/silicon exclusion, via placement, disjoint
silicon connection sets, and transistor geometry. -/
def Cell.check (c : Cell) : Bool :=
  c.metal.check && c.ntype.check && c.ptype.check &&
  (!c.capacitor || (!c.ntype.toBool && !c.ptype.toBool)) &&
  (!c.via || ((c.ntype.toBool || c.ptype.toBool) && !c.is_transistor)) &&
  (c.ntype.connections.inter c.ptype.connections).isEmpty &&
  (!c.is_transistor ||
    ((if c.n_on_top then c.ptype else c.ntype).connections.card == 2 &&
     decide ((if c.n_on_top then c.ptype else c.ntype).connections.deltaSum = ⟨0, 0⟩) &&
     decide (1 ≤ (if c.n_on_top then c.ntype else c.ptype).connections.card)))

/-- `Solution`: the full grid plus editor metadata. -/
structure Solution where
  cells : List (List Cell)
  selection : Option (Coords × Coords) := none
  save_string : Option String := none
deriving DecidableEq, Repr

/-- The all-absent layer cell (used only as an out-of-range list default). -/
def emptyLayerCell : LayerCell :=
  ⟨false, ⟨false, false, false, false⟩⟩

/-- The all-absent cell (used only as an out-of-range list default). -/
def emptyCell : Cell :=
  ⟨emptyLayerCell, emptyLayerCell, emptyLayerCell, false, false, false⟩

/-- `self.cells[x][y]` (defaulting out-of-range indices; `Solution.check`
only indexes in range). -/
def Solution.getCell (s : Solution) (x y : Int) : Cell :=
  (s.cells.getD x.toNat []).getD y.toNat emptyCell

/-- The three layers in index order. -/
def allLayers : List Layer :=
  [.METAL_LAYER, .NTYPE_LAYER, .PTYPE_LAYER]

/-- The four directions. -/
def allDirections : List Direction :=
  [.RIGHT, .UP, .LEFT, .DOWN]

/-- `Solution.check`: `true` iff every assert of the Python method passes:
the grid is 6×5, every cell passes `Cell.check`, and every connection of
every cell and layer is reciprocated by its in-bounds neighbour, or else is
an out-of-bounds metal connection at a legal pin position
(`x in {-1, 6}`, `y in {0, 2, 4}`). -/
def Solution.check (s : Solution) : Bool :=
  (s.cells.length == 6) && s.cells.all (fun a => a.length == 5) &&
  (List.range 6).all fun x => (List.range 5).all fun y =>
    (s.getCell x y).check &&
    allLayers.all fun layer =>
      allDirections.all fun d =>
        !((s.getCell x y).layer layer).connections.mem d ||
        (let n_loc := Coords.add ⟨x, y⟩ d.delta
         if n_loc.in_bounds then
           ((s.getCell n_loc.x n_loc.y).layer layer).connections.mem d.opposite
         else
           decide (layer = Layer.METAL_LAYER) &&
           (n_loc.x == -1 || n_loc.x == 6) &&
           (n_loc.y == 0 || n_loc.y == 2 || n_loc.y == 4))

/-- `LayerCellState`: one conductor layer of a runtime cell state
(`powered` defaults to `False`, `open` to `True`). -/
structure LayerCellState where
  value : Bool
  connections : DirSet
  powered : Bool := false
  «open» : Bool := true
deriving DecidableEq, Repr

/-- `LayerCellState.from_layer_cell`: copy the static data, defaults
`powered=False`, `open=True`. -/
def LayerCellState.from_layer_cell (lc : LayerCell) : LayerCellState :=
  { value := lc.value, connections := lc.connections }

/-- `CellState`: a runtime cell state. -/
structure CellState where
  metal : LayerCellState
  ntype : LayerCellState
  ptype : LayerCellState
  capacitor : Bool
  via : Bool
  n_on_top : Bool
deriving DecidableEq, Repr

/-- `CellState.layer`: select a layer state by index. -/
def CellState.layer (s : CellState) : Layer → LayerCellState
  | .METAL_LAYER => s.metal
  | .NTYPE_LAYER => s.ntype
  | .PTYPE_LAYER => s.ptype

/-- `CellState.update_gates`, as a pure state-to-state function.
Note: `LayerCellState` defines neither `__bool__` nor `__len__`, so in
`if self.capacitor and self.metal:` and `if self.ntype and self.ptype:` the
dataclass operands are always truthy; only `self.capacitor` and the
`powered` flags decide the branches. -/
def CellState.update_gates (s : CellState) : CellState :=
  let s1 :=
    if s.capacitor then
      if !s.metal.powered then { s with metal := { s.metal with «open» := false } }
      else s
    else s
  if s1.n_on_top then { s1 with ptype := { s1.ptype with «open» := !s1.ntype.powered } }
  else { s1 with ntype := { s1.ntype with «open» := s1.ptype.powered } }

/-- `CellState.from_cell`: build the state from the static cell with the
field defaults, then `update_gates` once. -/
def CellState.from_cell (c : Cell) : CellState :=
  (CellState.mk
    (LayerCellState.from_layer_cell c.metal)
    (LayerCellState.from_layer_cell c.ntype)
    (LayerCellState.from_layer_cell c.ptype)
    c.capacitor c.via c.n_on_top).update_gates

/-- The spec-described seeding of a runtime state from a static cell:
copy presence and connections, `powered := false` and `open := true` on
every layer, keep the static flags. -/
def CellState.initial_unpowered (c : Cell) : CellState :=
  { metal := { value := c.metal.value, connections := c.metal.connections,
               powered := false, «open» := true },
    ntype := { value := c.ntype.value, connections := c.ntype.connections,
               powered := false, «open» := true },
    ptype := { value := c.ptype.value, connections := c.ptype.connections,
               powered := false, «open» := true },
    capacitor := c.capacitor, via := c.via, n_on_top := c.n_on_top }

/-- Helper: `update_gates` never touches a `powered` flag. -/
theorem update_gates_preserves_powered (s : CellState) :
    s.update_gates.metal.powered = s.metal.powered ∧
    s.update_gates.ntype.powered = s.ntype.powered ∧
    s.update_gates.ptype.powered = s.ptype.powered := by
  obtain ⟨⟨mv, mc, mp, mo⟩, ⟨nv, nc, np, no1⟩, ⟨pv, pc, pp, po⟩, cap, vi, ntop⟩ := s
  cases cap <;> cases ntop <;> cases mp <;> simp [CellState.update_gates]

/-- A sample transistor state: both silicon layers present, n-on-top,
powered n-type base. -/
def transistorSample : CellState :=
  { metal := { value := false, connections := ⟨false, false, false, false⟩ },
    ntype := { value := true, connections := ⟨false, true, false, false⟩, powered := true },
    ptype := { value := true, connections := ⟨true, false, true, false⟩ },
    capacitor := false, via := false, n_on_top := true }

/-- Claim C1: for every cell state with both silicon layers present, the
transistor rule of `update_gates` sets, when n-on-top, the p-type `open`
flag to the negation of the n-type `powered` flag (leaving the n-type
`open` flag unchanged), and, when not n-on-top, the n-type `open` flag to
the p-type `powered` flag (leaving the p-type `open` flag unchanged); the
metal `open` flag is changed only by the capacitor rule. -/
theorem update_gates_transistor_rule (s : CellState)
    (hn : s.ntype.value = true) (hp : s.ptype.value = true) :
    (s.n_on_top = true →
      s.update_gates.ptype.«open» = !s.ntype.powered ∧
      s.update_gates.ntype.«open» = s.ntype.«open») ∧
    (s.n_on_top = false →
      s.update_gates.ntype.«open» = s.ptype.powered ∧
      s.update_gates.ptype.«open» = s.ptype.«open») ∧
    s.update_gates.metal.«open» =
      (if s.capacitor && !s.metal.powered then false else s.metal.«open») := by
  obtain ⟨⟨mv, mc, mp, mo⟩, ⟨nv, nc, np, no1⟩, ⟨pv, pc, pp, po⟩, cap, vi, ntop⟩ := s
  cases cap <;> cases ntop <;> cases mp <;> simp [CellState.update_gates]

/-- Witness for C1 at `transistorSample`. -/
theorem update_gates_transistor_rule_witness :
    transistorSample.ntype.value = true ∧ transistorSample.ptype.value = true ∧
    ((transistorSample.n_on_top = true →
       transistorSample.update_gates.ptype.«open» = !transistorSample.ntype.powered ∧
       transistorSample.update_gates.ntype.«open» = transistorSample.ntype.«open») ∧
     (transistorSample.n_on_top = false →
       transistorSample.update_gates.ntype.«open» = transistorSample.ptype.powered ∧
       transistorSample.update_gates.ptype.«open» = transistorSample.ptype.«open») ∧
     transistorSample.update_gates.metal.«open» =
       (if transistorSample.capacitor && !transistorSample.metal.powered then false
        else transistorSample.metal.«open»)) :=
  ⟨rfl, rfl, update_gates_transistor_rule transistorSample rfl rfl⟩

/-- A capacitor cell whose present metal layer is powered but currently has
`open = false`. -/
def chargedClosedCapacitor : CellState :=
  { metal := { value := true, connections := ⟨false, false, false, false⟩,
               powered := true, «open» := false },
    ntype := { value := false, connections := ⟨false, false, false, false⟩ },
    ptype := { value := false, connections := ⟨false, false, false, false⟩ },
    capacitor := true, via := false, n_on_top := false }

/-- Claim C2 counterexample: at `chargedClosedCapacitor` the claim's
premises hold (capacitor, metal present, metal powered) yet the metal
`open` flag is still `false` after `update_gates`, refuting "when the metal
layer is currently powered, the metal layer's open flag is true after
update_gates": the code leaves the flag unchanged rather than setting it. -/
theorem update_gates_capacitor_powered_counterexample :
    chargedClosedCapacitor.capacitor = true ∧
    chargedClosedCapacitor.metal.value = true ∧
    chargedClosedCapacitor.metal.powered = true ∧
    chargedClosedCapacitor.update_gates.metal.«open» = false := by
  decide

/-- A capacitor cell on an unpowered, open metal layer. -/
def capacitorSample : CellState :=
  { metal := { value := true, connections := ⟨true, false, true, false⟩ },
    ntype := { value := false, connections := ⟨false, false, false, false⟩ },
    ptype := { value := false, connections := ⟨false, false, false, false⟩ },
    capacitor := true, via := false, n_on_top := false }

/-- Claim C2 (amended): for every capacitor cell state with a present metal
layer, `update_gates` clears the metal `open` flag when the metal layer is
not powered, and leaves it unchanged when the metal layer is powered (so a
charged capacitor whose `open` flag is true stays conducting). -/
theorem update_gates_capacitor_rule (s : CellState)
    (hc : s.capacitor = true) (hm : s.metal.value = true) :
    (s.metal.powered = false → s.update_gates.metal.«open» = false) ∧
    (s.metal.powered = true → s.update_gates.metal.«open» = s.metal.«open») := by
  obtain ⟨⟨mv, mc, mp, mo⟩, ⟨nv, nc, np, no1⟩, ⟨pv, pc, pp, po⟩, cap, vi, ntop⟩ := s
  cases cap <;> cases ntop <;> cases mp <;> simp_all [CellState.update_gates]

/-- Witness for the amended C2 at `capacitorSample`. -/
theorem update_gates_capacitor_rule_witness :
    capacitorSample.capacitor = true ∧ capacitorSample.metal.value = true ∧
    ((capacitorSample.metal.powered = false →
       capacitorSample.update_gates.metal.«open» = false) ∧
     (capacitorSample.metal.powered = true →
       capacitorSample.update_gates.metal.«open» = capacitorSample.metal.«open»)) :=
  ⟨rfl, rfl, update_gates_capacitor_rule capacitorSample rfl rfl⟩

/-- Claim C5: the gate-update rule is idempotent: applying `update_gates`
twice (the `powered` flags are untouched in between) gives the same cell
state, in particular the same three `open` flags, as applying it once. -/
theorem update_gates_idempotent (s : CellState) :
    s.update_gates.update_gates = s.update_gates := by
  obtain ⟨⟨mv, mc, mp, mo⟩, ⟨nv, nc, np, no1⟩, ⟨pv, pc, pp, po⟩, cap, vi, ntop⟩ := s
  cases cap <;> cases ntop <;> cases mp <;> simp [CellState.update_gates]

/-- Claim C6: `CellState.from_cell` equals the spec-described seeding
(`powered=false`, `open=true` on every layer, copied static data) followed
by exactly one `update_gates`; every layer of the result is unpowered. -/
theorem from_cell_is_seeded_unpowered (c : Cell) :
    CellState.from_cell c = (CellState.initial_unpowered c).update_gates ∧
    (CellState.from_cell c).metal.powered = false ∧
    (CellState.from_cell c).ntype.powered = false ∧
    (CellState.from_cell c).ptype.powered = false := by
  have h := update_gates_preserves_powered (CellState.initial_unpowered c)
  exact ⟨rfl, h.1, h.2.1, h.2.2⟩

/-- Claim C9: `update_gates` changes no `powered` flag, no presence value,
no connection set, and none of the static capacitor/via/n-on-top flags:
only the `open` flags may differ. -/
theorem update_gates_modifies_only_open (s : CellState) :
    (∀ layer : Layer,
      (s.update_gates.layer layer).powered = (s.layer layer).powered ∧
      (s.update_gates.layer layer).value = (s.layer layer).value ∧
      (s.update_gates.layer layer).connections = (s.layer layer).connections) ∧
    s.update_gates.capacitor = s.capacitor ∧
    s.update_gates.via = s.via ∧
    s.update_gates.n_on_top = s.n_on_top := by
  obtain ⟨⟨mv, mc, mp, mo⟩, ⟨nv, nc, np, no1⟩, ⟨pv, pc, pp, po⟩, cap, vi, ntop⟩ := s
  refine ⟨fun layer => ?_, ?_, ?_, ?_⟩ <;>
    first
      | (cases layer <;> cases cap <;> cases ntop <;> cases mp <;>
          simp [CellState.update_gates, CellState.layer])
      | (cases cap <;> cases ntop <;> cases mp <;> simp [CellState.update_gates])

/-- Claim C10: `update_gates` never turns the metal `open` flag from false
to true: if it is true afterwards, it was true before. -/
theorem update_gates_metal_open_monotone (s : CellState)
    (h : s.update_gates.metal.«open» = true) : s.metal.«open» = true := by
  obtain ⟨⟨mv, mc, mp, mo⟩, ⟨nv, nc, np, no1⟩, ⟨pv, pc, pp, po⟩, cap, vi, ntop⟩ := s
  revert h
  cases cap <;> cases ntop <;> cases mp <;> simp [CellState.update_gates]

/-- A plain conductor cell state with an open metal layer. -/
def plainOpenCell : CellState :=
  { metal := { value := true, connections := ⟨true, false, true, false⟩ },
    ntype := { value := false, connections := ⟨false, false, false, false⟩ },
    ptype := { value := false, connections := ⟨false, false, false, false⟩ },
    capacitor := false, via := false, n_on_top := false }

/-- Witness for C10 at `plainOpenCell`. -/
theorem update_gates_metal_open_monotone_witness :
    plainOpenCell.update_gates.metal.«open» = true ∧
    plainOpenCell.metal.«open» = true :=
  ⟨by decide, update_gates_metal_open_monotone plainOpenCell (by decide)⟩

/-- Claim C8: a conductor-layer cell that passes `LayerCell.check` with
`value = false` (layer absent) has an empty connection set; equivalently,
`check` fails whenever `value = false` and the connection set is non-empty. -/
theorem layer_cell_check_no_ghost_connections (lc : LayerCell)
    (h : lc.check = true) (hv : lc.value = false) :
    lc.connections.isEmpty = true := by
  simpa [LayerCell.check, hv] using h

/-- Witness for C8 at `emptyLayerCell`. -/
theorem layer_cell_check_no_ghost_connections_witness :
    emptyLayerCell.check = true ∧ emptyLayerCell.value = false ∧
    emptyLayerCell.connections.isEmpty = true :=
  ⟨by decide, by decide,
    layer_cell_check_no_ghost_connections emptyLayerCell (by decide) (by decide)⟩

/-- A legal via cell: raw n-type under metal, no p-type. -/
def viaSample : Cell :=
  { metal := ⟨true, ⟨false, false, false, false⟩⟩,
    ntype := ⟨true, ⟨false, false, false, false⟩⟩,
    ptype := ⟨false, ⟨false, false, false, false⟩⟩,
    capacitor := false, via := true, n_on_top := false }

/-- Claim C7: a cell that passes `Cell.check` satisfies both placement
rules: a capacitor never overlaps silicon (neither silicon layer present),
and a via sits on exactly one silicon layer (at least one present, not
both); equivalently, `check` fails on any cell violating either rule. -/
theorem cell_check_capacitor_via_placement (c : Cell) (h : c.check = true) :
    (c.capacitor = true → c.ntype.value = false ∧ c.ptype.value = false) ∧
    (c.via = true → (c.ntype.value = true ∨ c.ptype.value = true) ∧
      ¬(c.ntype.value = true ∧ c.ptype.value = true)) := by
  obtain ⟨⟨mv, mc⟩, ⟨nv, nc⟩, ⟨pv, pc⟩, cap, vi, ntop⟩ := c
  cases cap <;> cases vi <;> cases nv <;> cases pv <;>
    simp_all [Cell.check, Cell.is_transistor, LayerCell.toBool]

/-- Witness for C7 at `viaSample`. -/
theorem cell_check_capacitor_via_placement_witness :
    viaSample.check = true ∧
    ((viaSample.capacitor = true →
       viaSample.ntype.value = false ∧ viaSample.ptype.value = false) ∧
     (viaSample.via = true →
       (viaSample.ntype.value = true ∨ viaSample.ptype.value = true) ∧
       ¬(viaSample.ntype.value = true ∧ viaSample.ptype.value = true))) :=
  ⟨by decide, cell_check_capacitor_via_placement viaSample (by decide)⟩

/-- A legal transistor cell: n-on-top, p-type channel RIGHT/LEFT,
n-type base connected UP. -/
def transistorCellSample : Cell :=
  { metal := ⟨false, ⟨false, false, false, false⟩⟩,
    ntype := ⟨true, ⟨false, true, false, false⟩⟩,
    ptype := ⟨true, ⟨true, false, true, false⟩⟩,
    capacitor := false, via := false, n_on_top := true }

/-- Claim C4: a transistor cell (both silicon layers present) that passes
`Cell.check` has an emitter/collector layer (p-type when n-on-top, else
n-type) with exactly two connections whose unit deltas sum to zero, and a
base layer (the other one) with at least one connection; equivalently,
`check` fails on any transistor cell violating either condition. -/
theorem cell_check_transistor_geometry (c : Cell)
    (ht : c.is_transistor = true) (h : c.check = true) :
    (if c.n_on_top then c.ptype else c.ntype).connections.card = 2 ∧
    (if c.n_on_top then c.ptype else c.ntype).connections.deltaSum = ⟨0, 0⟩ ∧
    1 ≤ (if c.n_on_top then c.ntype else c.ptype).connections.card := by
  obtain ⟨⟨mv, mc⟩, ⟨nv, nc⟩, ⟨pv, pc⟩, cap, vi, ntop⟩ := c
  cases ntop <;> simp_all [Cell.check, Cell.is_transistor, LayerCell.toBool]

/-- Witness for C4 at `transistorCellSample`. -/
theorem cell_check_transistor_geometry_witness :
    transistorCellSample.is_transistor = true ∧
    transistorCellSample.check = true ∧
    ((if transistorCellSample.n_on_top then transistorCellSample.ptype
      else transistorCellSample.ntype).connections.card = 2 ∧
     (if transistorCellSample.n_on_top then transistorCellSample.ptype
      else transistorCellSample.ntype).connections.deltaSum = ⟨0, 0⟩ ∧
     1 ≤ (if transistorCellSample.n_on_top then transistorCellSample.ntype
      else transistorCellSample.ptype).connections.card) :=
  ⟨by decide, by decide,
    cell_check_transistor_geometry transistorCellSample (by decide) (by decide)⟩

/-- The reciprocity / boundary-pin condition for one connection of cell
`(x, y)`, layer `layer`, direction `d`: the in-bounds neighbour holds the
opposite direction in the same layer, and an out-of-bounds neighbour is
only legal for the metal layer at a pin position (`x ∈ {-1, 6}`,
`y ∈ {0, 2, 4}`). -/
def Solution.connOk (s : Solution) (x y : Int) (layer : Layer) (d : Direction) : Prop :=
  ((Coords.add ⟨x, y⟩ d.delta).in_bounds = true →
    ((s.getCell (Coords.add ⟨x, y⟩ d.delta).x (Coords.add ⟨x, y⟩ d.delta).y).layer
      layer).connections.mem d.opposite = true) ∧
  ((Coords.add ⟨x, y⟩ d.delta).in_bounds = false →
    layer = Layer.METAL_LAYER ∧
    ((Coords.add ⟨x, y⟩ d.delta).x = -1 ∨ (Coords.add ⟨x, y⟩ d.delta).x = 6) ∧
    ((Coords.add ⟨x, y⟩ d.delta).y = 0 ∨ (Coords.add ⟨x, y⟩ d.delta).y = 2 ∨
      (Coords.add ⟨x, y⟩ d.delta).y = 4))

/-- Claim C3: a solution that passes `Solution.check` satisfies the
reciprocity / boundary-pin condition for every connection of every cell
and layer; equivalently, `check` fails on any solution containing an
unreciprocated in-bounds connection or an illegal out-of-bounds one. -/
theorem solution_check_reciprocity (s : Solution) (h : s.check = true) :
    ∀ x : Nat, x < 6 → ∀ y : Nat, y < 5 → ∀ layer : Layer, ∀ d : Direction,
      ((s.getCell x y).layer layer).connections.mem d = true →
      Solution.connOk s x y layer d := by
  intro x hx y hy layer d hmem
  have hl : layer ∈ allLayers := by cases layer <;> simp [allLayers]
  have hd : d ∈ allDirections := by cases d <;> simp [allDirections]
  simp only [Solution.check, Bool.and_eq_true, List.all_eq_true, List.mem_range] at h
  have hb := (h.2 x hx y hy).2 layer hl d hd
  rw [Bool.or_eq_true, Bool.not_eq_true'] at hb
  rcases hb with hb | hb
  · rw [hmem] at hb
    cases hb
  · constructor
    · intro hin
      rw [if_pos hin] at hb
      exact hb
    · intro hin
      rw [if_neg (by rw [hin]; exact Bool.false_ne_true)] at hb
      simp only [Bool.and_eq_true, Bool.or_eq_true, decide_eq_true_eq,
        beq_iff_eq] at hb
      exact ⟨hb.1.1, hb.1.2, or_assoc.mp hb.2⟩

/-- A metal cell connected RIGHT (sits at `(0, 0)` of `wSolution`). -/
def wCellA : Cell :=
  { metal := ⟨true, ⟨true, false, false, false⟩⟩, ntype := emptyLayerCell,
    ptype := emptyLayerCell, capacitor := false, via := false, n_on_top := false }

/-- A metal cell connected LEFT (sits at `(1, 0)` of `wSolution`). -/
def wCellB : Cell :=
  { metal := ⟨true, ⟨false, false, true, false⟩⟩, ntype := emptyLayerCell,
    ptype := emptyLayerCell, capacitor := false, via := false, n_on_top := false }

/-- A valid 6×5 solution with one reciprocated metal connection between
`(0, 0)` and `(1, 0)`. -/
def wSolution : Solution :=
  { cells :=
      [[wCellA, emptyCell, emptyCell, emptyCell, emptyCell],
       [wCellB, emptyCell, emptyCell, emptyCell, emptyCell],
       [emptyCell, emptyCell, emptyCell, emptyCell, emptyCell],
       [emptyCell, emptyCell, emptyCell, emptyCell, emptyCell],
       [emptyCell, emptyCell, emptyCell, emptyCell, emptyCell],
       [emptyCell, emptyCell, emptyCell, emptyCell, emptyCell]] }

/-- Witness for C3 at `wSolution`, cell `(0, 0)`, metal layer, RIGHT. -/
theorem solution_check_reciprocity_witness :
    wSolution.check = true ∧
    Solution.connOk wSolution 0 0 Layer.METAL_LAYER Direction.RIGHT :=
  ⟨by decide,
    solution_check_reciprocity wSolution (by decide) 0 (by decide) 0 (by decide)
      Layer.METAL_LAYER Direction.RIGHT (by decide)⟩

end ChipwizardSim
